import Mathlib

/-!
Verification of the session and long-running-operation control core of the
fabits-mcp server: the TokenManager credential store, the single-flight
silent token refresh (`silentRefreshToken`), the authenticated-client
retry interceptor (`createAuthenticatedClient`), and the two bounded
polling loops (`pollPaymentStatus`, `pollMandateStatus`).

Strings are modelled as Lean `String`; an absent (JavaScript `undefined`)
field is `Option.none`; JavaScript truthiness of a string-valued field is
`truthy` below (absent or empty is falsy).  File storage is modelled as an
in-memory `Option AuthToken` (the JSON round-trip is taken as faithful;
an absent or unreadable file is `none`).
-/

namespace FabitsMCP

/-- JavaScript truthiness for an optional string field: `undefined` and the
empty string are falsy. -/
def truthy : Option String → Bool
  | none => false
  | some s => !(s == "")

/-- JavaScript `a || b` on optional string fields: the first operand when it
is truthy, otherwise the second. -/
def jsOr (a b : Option String) : Option String :=
  if truthy a then a else b

/-- The persisted credential record (`AuthToken` in src/types.ts).  Every
field is optional at runtime: after `clearToken` the file holds `{}`, so even
`token` may be absent when read back. -/
structure AuthToken where
  token : Option String
  refreshToken : Option String
  phoneNumber : Option String
  clientCode : Option String
  panNumber : Option String
deriving Repr, DecidableEq

/-- The record written by `clearToken` (`JSON.stringify({})`). -/
def emptyAuthToken : AuthToken :=
  { token := none, refreshToken := none, phoneNumber := none
    clientCode := none, panNumber := none }

/-- State of one `TokenManager` instance: the in-memory cache and the token
file (`none` = absent or unparsable). -/
structure TMState where
  cachedToken : Option AuthToken
  fileToken : Option AuthToken
deriving Repr, DecidableEq

/-- `TokenManager.saveToken`: write the record to the file and cache it. -/
def saveToken (t : AuthToken) (_s : TMState) : TMState :=
  { cachedToken := some t, fileToken := some t }

/-- `TokenManager.loadToken`: return the cached record if present, else read
the file (caching the result); an absent or invalid file yields `none`. -/
def loadToken (s : TMState) : Option AuthToken × TMState :=
  match s.cachedToken with
  | some t => (some t, s)
  | none =>
    match s.fileToken with
    | some t => (some t, { s with cachedToken := some t })
    | none => (none, s)

/-- `TokenManager.clearToken`: drop the cache and overwrite the file with an
empty record. -/
def clearToken (_s : TMState) : TMState :=
  { cachedToken := none, fileToken := some emptyAuthToken }

/-- The `NotAuthenticated` condition raised by `requireToken`. -/
inductive AuthErr
  | notAuthenticated
deriving Repr, DecidableEq

/-- `TokenManager.requireToken`: load the record and fail with
`NotAuthenticated` unless it exists and has a truthy `token` field. -/
def requireToken (s : TMState) : Except AuthErr String × TMState :=
  match loadToken s with
  | (none, s1) => (.error .notAuthenticated, s1)
  | (some t, s1) =>
    match t.token with
    | none => (.error .notAuthenticated, s1)
    | some tok => if tok == "" then (.error .notAuthenticated, s1) else (.ok tok, s1)

/-! ## The silent token refresh (`silentRefreshToken` in src/types.ts) -/

/-- The fields of the decoded JWT payload that the refresh path reads
(`decodeJWT` returns `{}` on a malformed token, i.e. all fields absent). -/
structure DecodedJWT where
  phoneNumber : Option String
  uid : Option String
  panNumber : Option String
deriving Repr, DecidableEq

/-- One outcome of the outbound `axios.post` to the refresh endpoint:
an HTTP-level success carrying `access_token`, the optional
`refresh_token`, and the decoded JWT of the new access token; or an axios
error with an optional HTTP status (`none` = network failure / timeout,
which has no response status). -/
inductive RefreshResp
  | httpOk (accessToken : String) (refreshTokenField : Option String) (decoded : DecodedJWT)
  | httpErr (status : Option Nat)
deriving Repr, DecidableEq

/-- The errors `silentRefreshToken` can throw: the named `Error` messages
`REFRESH_TOKEN_MISSING`, `REFRESH_TOKEN_EXPIRED` and `REFRESH_FAILED`, or
the last transient axios error rethrown after the retries are exhausted. -/
inductive RefreshThrown
  | tokenMissing
  | tokenExpired
  | failed
  | axios (status : Option Nat)
deriving Repr, DecidableEq

/-- The spec taxonomy boundary actually drawn by the code: the interceptor
in `createAuthenticatedClient` treats exactly the message
`REFRESH_TOKEN_EXPIRED` as the fatal renewal-credential classification and
everything else as a non-fatal renewal failure. -/
inductive RenewClass
  | renewalCredentialExpired
  | renewalFailed
deriving Repr, DecidableEq

/-- Classification of a thrown refresh error into the spec taxonomy, as
drawn by the `refreshError.message === 'REFRESH_TOKEN_EXPIRED'` test. -/
def classifyRenewErr : RefreshThrown → RenewClass
  | .tokenExpired => .renewalCredentialExpired
  | _ => .renewalFailed

/-- Whether an optional HTTP status is 401 or 403
(`error.response?.status === 401 || error.response?.status === 403`). -/
def isAuthStatus (status : Option Nat) : Bool :=
  status == some 401 || status == some 403

/-- The replacement credential record written on a successful refresh:
new access token; new refresh token if the response carried a truthy one,
else the old; identity fields from the decoded JWT where truthy, else
carried over from the old record. -/
def refreshedRecord (old : AuthToken) (accessToken : String)
    (rt : Option String) (dec : DecodedJWT) : AuthToken :=
  { token := some accessToken
    refreshToken := jsOr rt old.refreshToken
    phoneNumber := jsOr dec.phoneNumber old.phoneNumber
    clientCode := jsOr dec.uid old.clientCode
    panNumber := jsOr dec.panNumber old.panNumber }

deriving instance DecidableEq for Except

/-- Result of one driven refresh: the value returned or error thrown, the
resulting store state, and the number of outbound HTTP refresh calls made. -/
structure RefreshOutcome where
  result : Except RefreshThrown String
  state : TMState
  httpCalls : Nat
deriving Repr, DecidableEq

/-- `maxRetries` in `silentRefreshToken`. -/
def maxRetries : Nat := 3

/-- The retry loop of `silentRefreshToken`.  `env j` is the response of the
j-th outbound refresh call (attempts are numbered from 1).  A 200 response
with a falsy `access_token` raises `REFRESH_FAILED` inside the `try`, which
the `catch` records and treats as transient; 401/403 raises
`REFRESH_TOKEN_EXPIRED` and 400 raises `REFRESH_FAILED`, both escaping the
loop at once; any other error is transient.  When the attempts are
exhausted the last recorded error is rethrown. -/
def refreshLoop (env : Nat → RefreshResp) (old : AuthToken) (st : TMState) :
    Nat → Nat → Nat → Option RefreshThrown → RefreshOutcome
  | _attempt, 0, calls, lastError =>
    ⟨.error (lastError.getD .failed), st, calls⟩
  | attempt, fuel + 1, calls, _lastError =>
    match env attempt with
    | .httpOk tok rt dec =>
      if tok == "" then
        refreshLoop env old st (attempt + 1) fuel (calls + 1) (some .failed)
      else
        ⟨.ok tok, saveToken (refreshedRecord old tok rt dec) st, calls + 1⟩
    | .httpErr status =>
      if isAuthStatus status then ⟨.error .tokenExpired, st, calls + 1⟩
      else if status == some 400 then ⟨.error .failed, st, calls + 1⟩
      else refreshLoop env old st (attempt + 1) fuel (calls + 1) (some (.axios status))

/-- The body of the driven refresh (the async closure in
`silentRefreshToken`): load the stored record, fail with
`REFRESH_TOKEN_MISSING` when it is absent or its `refreshToken` is falsy,
else run the retry loop from attempt 1 with `maxRetries` attempts. -/
def silentRefreshBody (env : Nat → RefreshResp) (s : TMState) : RefreshOutcome :=
  match loadToken s with
  | (none, s1) => ⟨.error .tokenMissing, s1, 0⟩
  | (some tokenData, s1) =>
    if truthy tokenData.refreshToken then
      refreshLoop env tokenData s1 1 maxRetries 0 none
    else ⟨.error .tokenMissing, s1, 0⟩

/-- A response the retry loop treats as transient: an HTTP success with a
falsy `access_token`, or an axios error whose status is neither 401/403
nor 400 (covers 5xx, network failures and timeouts). -/
def isTransientResp : RefreshResp → Bool
  | .httpOk tok _ _ => tok == ""
  | .httpErr status => !(isAuthStatus status) && !(status == some 400)

/-- A transient error in the sense of the spec sentence for claim C6:
a network failure, timeout, or HTTP status other than 400/401/403. -/
def isTransientErr : RefreshResp → Bool
  | .httpOk _ _ _ => false
  | .httpErr status => !(isAuthStatus status) && !(status == some 400)

/-- An HTTP-equivalent 401/403 error response from the refresh endpoint. -/
def isAuthErrResp : RefreshResp → Bool
  | .httpOk _ _ _ => false
  | .httpErr status => isAuthStatus status

/-- Classification of a refresh result: `none` for success, otherwise the
taxonomy bucket of the thrown error. -/
def renewClassOf : Except RefreshThrown String → Option RenewClass
  | .ok _ => none
  | .error e => some (classifyRenewErr e)

lemma refreshLoop_transient_step (env : Nat → RefreshResp) (old : AuthToken)
    (st : TMState) (attempt fuel calls : Nat) (lastError : Option RefreshThrown)
    (h : isTransientResp (env attempt) = true) :
    ∃ le, refreshLoop env old st attempt (fuel + 1) calls lastError
        = refreshLoop env old st (attempt + 1) fuel (calls + 1) (some le) := by
  cases henv : env attempt with
  | httpOk tok rt dec =>
    rw [henv, isTransientResp] at h
    exact ⟨.failed, by rw [refreshLoop, henv]; simp [h]⟩
  | httpErr status =>
    rw [henv, isTransientResp] at h
    simp only [Bool.and_eq_true, Bool.not_eq_true'] at h
    exact ⟨.axios status, by rw [refreshLoop, henv]; simp [h.1, h.2]⟩

lemma refreshLoop_auth_now (env : Nat → RefreshResp) (old : AuthToken)
    (st : TMState) (attempt fuel calls : Nat) (lastError : Option RefreshThrown)
    (h : isAuthErrResp (env attempt) = true) :
    refreshLoop env old st attempt (fuel + 1) calls lastError
      = ⟨.error .tokenExpired, st, calls + 1⟩ := by
  cases henv : env attempt with
  | httpOk tok rt dec => rw [henv, isAuthErrResp] at h; cases h
  | httpErr status =>
    rw [henv, isAuthErrResp] at h
    rw [refreshLoop, henv]
    simp [h]

lemma refreshLoop_ok_now (env : Nat → RefreshResp) (old : AuthToken)
    (st : TMState) (attempt fuel calls : Nat) (lastError : Option RefreshThrown)
    (tok : String) (rt : Option String) (dec : DecodedJWT)
    (henv : env attempt = .httpOk tok rt dec) (htok : (tok == "") = false) :
    refreshLoop env old st attempt (fuel + 1) calls lastError
      = ⟨.ok tok, saveToken (refreshedRecord old tok rt dec) st, calls + 1⟩ := by
  rw [refreshLoop, henv]
  simp [htok]

lemma refreshLoop_skip (env : Nat → RefreshResp) (old : AuthToken) (st : TMState) :
    ∀ (m attempt fuel calls : Nat) (lastError : Option RefreshThrown),
      m ≤ fuel →
      (∀ j, attempt ≤ j → j < attempt + m → isTransientResp (env j) = true) →
      ∃ le, refreshLoop env old st attempt fuel calls lastError
          = refreshLoop env old st (attempt + m) (fuel - m) (calls + m) le := by
  intro m
  induction m with
  | zero => intro attempt fuel calls lastError _ _; exact ⟨lastError, by simp⟩
  | succ m ih =>
    intro attempt fuel calls lastError hm htr
    obtain ⟨fuel1, rfl⟩ : ∃ f, fuel = f + 1 := ⟨fuel - 1, by omega⟩
    obtain ⟨le1, h1⟩ := refreshLoop_transient_step env old st attempt fuel1 calls lastError
      (htr attempt le_rfl (by omega))
    obtain ⟨le, h2⟩ := ih (attempt + 1) fuel1 (calls + 1) (some le1) (by omega)
      (fun j hj hj2 => htr j (by omega) (by omega))
    have e1 : attempt + 1 + m = attempt + (m + 1) := by omega
    have e2 : fuel1 - m = fuel1 + 1 - (m + 1) := by omega
    have e3 : calls + 1 + m = calls + (m + 1) := by omega
    rw [e1, e2, e3] at h2
    exact ⟨le, h1.trans h2⟩

lemma refreshLoop_exhaust (env : Nat → RefreshResp) (old : AuthToken) (st : TMState) :
    ∀ (f attempt calls : Nat) (lastError : Option RefreshThrown),
      (∀ j, attempt ≤ j → j < attempt + (f + 1) → isTransientResp (env j) = true) →
      ∃ e, refreshLoop env old st attempt (f + 1) calls lastError
          = ⟨.error e, st, calls + (f + 1)⟩ ∧ classifyRenewErr e = .renewalFailed := by
  intro f
  induction f with
  | zero =>
    intro attempt calls lastError htr
    have h := htr attempt le_rfl (by omega)
    cases henv : env attempt with
    | httpOk tok rt dec =>
      rw [henv, isTransientResp] at h
      exact ⟨.failed, by rw [refreshLoop, henv]; simp [h, refreshLoop], rfl⟩
    | httpErr status =>
      rw [henv, isTransientResp] at h
      simp only [Bool.and_eq_true, Bool.not_eq_true'] at h
      exact ⟨.axios status, by rw [refreshLoop, henv]; simp [h.1, h.2, refreshLoop], rfl⟩
  | succ f ih =>
    intro attempt calls lastError htr
    obtain ⟨le1, h1⟩ := refreshLoop_transient_step env old st attempt (f + 1) calls lastError
      (htr attempt le_rfl (by omega))
    obtain ⟨e, h2, hc⟩ := ih (attempt + 1) (calls + 1) (some le1)
      (fun j hj hj2 => htr j (by omega) (by omega))
    have e3 : calls + 1 + (f + 1) = calls + (f + 1 + 1) := by omega
    exact ⟨e, by rw [h1, h2, e3], hc⟩

lemma silentRefreshBody_unfold (env : Nat → RefreshResp) (s : TMState)
    (old : AuthToken) (hload : (loadToken s).1 = some old)
    (hrt : truthy old.refreshToken = true) :
    silentRefreshBody env s = refreshLoop env old (loadToken s).2 1 maxRetries 0 none := by
  have hpair : loadToken s = (some old, (loadToken s).2) := by rw [← hload]
  rw [silentRefreshBody, hpair]
  simp [hrt]

/-- Claim C9: writing a credential record with `saveToken` and reading it
back with `loadToken`, with no intervening write, yields the very same
record (hence all field values are equal). -/
theorem saveToken_loadToken_roundtrip (t : AuthToken) (s : TMState) :
    (loadToken (saveToken t s)).1 = some t :=
  rfl

/-- Claim C5: a 401/403 from the remote renewal call on attempt k (with the
earlier attempts transient) makes `silentRefreshToken` throw
`REFRESH_TOKEN_EXPIRED` — the `RenewalCredentialExpired` classification —
after exactly k outbound calls: no further renewal attempts are made.  In
particular a 403 on the first attempt results in exactly one outbound
renewal call. -/
theorem silentRefresh_stops_on_auth_error (env : Nat → RefreshResp)
    (s : TMState) (old : AuthToken) (k : Nat)
    (hload : (loadToken s).1 = some old)
    (hrt : truthy old.refreshToken = true)
    (hk1 : 1 ≤ k) (hk3 : k ≤ maxRetries)
    (htr : ∀ j, 1 ≤ j → j < k → isTransientResp (env j) = true)
    (hauth : isAuthErrResp (env k) = true) :
    (silentRefreshBody env s).result = .error .tokenExpired ∧
    renewClassOf (silentRefreshBody env s).result = some .renewalCredentialExpired ∧
    (silentRefreshBody env s).httpCalls = k := by
  have hbody := silentRefreshBody_unfold env s old hload hrt
  rw [maxRetries] at hbody hk3
  obtain ⟨le, hskip⟩ := refreshLoop_skip env old (loadToken s).2 (k - 1) 1 3 0 none
    (by omega) (fun j hj hj2 => htr j hj (by omega))
  have e1 : 1 + (k - 1) = k := by omega
  obtain ⟨f, hf⟩ : ∃ f, 3 - (k - 1) = f + 1 := ⟨3 - k, by omega⟩
  rw [e1, hf] at hskip
  have hstop := refreshLoop_auth_now env old (loadToken s).2 k f (0 + (k - 1)) le hauth
  have hmain : silentRefreshBody env s
      = ⟨.error .tokenExpired, (loadToken s).2, 0 + (k - 1) + 1⟩ := by
    rw [hbody, hskip, hstop]
  rw [hmain]
  refine ⟨rfl, rfl, ?_⟩
  show 0 + (k - 1) + 1 = k
  omega

def env403 : Nat → RefreshResp := fun _ => .httpErr (some 403)

/-- A logged-in state: bearer token b1, renewal token r1. -/
def stLoggedIn : TMState :=
  { cachedToken := some { token := some "b1", refreshToken := some "r1"
                          phoneNumber := some "p1", clientCode := none, panNumber := none }
    fileToken := some { token := some "b1", refreshToken := some "r1"
                        phoneNumber := some "p1", clientCode := none, panNumber := none } }

/-- Witness for claim C5: a 403 on the first of the 3 allowed attempts stops
immediately with `REFRESH_TOKEN_EXPIRED` after exactly one outbound call. -/
theorem silentRefresh_stops_on_auth_error_witness :
    (silentRefreshBody env403 stLoggedIn).result = .error .tokenExpired ∧
    renewClassOf (silentRefreshBody env403 stLoggedIn).result = some .renewalCredentialExpired ∧
    (silentRefreshBody env403 stLoggedIn).httpCalls = 1 :=
  silentRefresh_stops_on_auth_error env403 stLoggedIn
    { token := some "b1", refreshToken := some "r1", phoneNumber := some "p1"
      clientCode := none, panNumber := none } 1
    rfl (by decide) (by decide) (by decide)
    (fun j h1 h2 => absurd (Nat.lt_of_le_of_lt h1 h2) (Nat.lt_irrefl 1))
    (by decide)

/-- Claim C6: when all 3 renewal attempts fail with transient errors
(network failure, timeout, or an HTTP status other than 400/401/403), the
refresh throws the last transient error, which the client layer classifies
as `RenewalFailed` (not `RenewalCredentialExpired`), after exactly 3
outbound calls. -/
theorem silentRefresh_transient_exhaustion_fails (env : Nat → RefreshResp)
    (s : TMState) (old : AuthToken)
    (hload : (loadToken s).1 = some old)
    (hrt : truthy old.refreshToken = true)
    (htr : ∀ j, 1 ≤ j → j ≤ maxRetries → isTransientErr (env j) = true) :
    renewClassOf (silentRefreshBody env s).result = some .renewalFailed ∧
    (silentRefreshBody env s).httpCalls = maxRetries := by
  have hbody := silentRefreshBody_unfold env s old hload hrt
  have htr2 : ∀ j, 1 ≤ j → j < 1 + (2 + 1) → isTransientResp (env j) = true := by
    intro j hj hj2
    have h := htr j hj (by rw [maxRetries]; omega)
    cases henv : env j with
    | httpOk tok rt dec => rw [henv, isTransientErr] at h; cases h
    | httpErr status => rw [henv, isTransientErr] at h; rw [isTransientResp]; exact h
  obtain ⟨e, hx, hc⟩ := refreshLoop_exhaust env old (loadToken s).2 2 1 0 none htr2
  have : silentRefreshBody env s = ⟨.error e, (loadToken s).2, 0 + (2 + 1)⟩ := by
    rw [hbody, maxRetries]
    exact hx
  rw [this, maxRetries]
  exact ⟨by rw [renewClassOf, hc], rfl⟩

def env500 : Nat → RefreshResp := fun _ => .httpErr (some 500)

/-- Witness for claim C6: three straight 500 responses exhaust the retries
and yield the `RenewalFailed` classification after exactly 3 calls. -/
theorem silentRefresh_transient_exhaustion_fails_witness :
    renewClassOf (silentRefreshBody env500 stLoggedIn).result = some .renewalFailed ∧
    (silentRefreshBody env500 stLoggedIn).httpCalls = maxRetries :=
  silentRefresh_transient_exhaustion_fails env500 stLoggedIn
    { token := some "b1", refreshToken := some "r1", phoneNumber := some "p1"
      clientCode := none, panNumber := none }
    rfl (by decide) (fun j h1 h2 => rfl)

/-- Claim C8: a successful renewal (attempt k succeeds with a truthy access
token, earlier attempts transient) writes a whole-record replacement: new
bearer token; the response's refresh token if truthy, else the old one;
identity fields from the decoded JWT where truthy, else carried over; and a
subsequent `requireToken` returns the new bearer token. -/
theorem silentRefresh_success_replaces_record (env : Nat → RefreshResp)
    (s : TMState) (old : AuthToken) (k : Nat) (tok : String)
    (rt : Option String) (dec : DecodedJWT)
    (hload : (loadToken s).1 = some old)
    (hrt : truthy old.refreshToken = true)
    (hk1 : 1 ≤ k) (hk3 : k ≤ maxRetries)
    (htr : ∀ j, 1 ≤ j → j < k → isTransientResp (env j) = true)
    (henv : env k = .httpOk tok rt dec)
    (htok : (tok == "") = false) :
    silentRefreshBody env s
      = ⟨.ok tok, saveToken (refreshedRecord old tok rt dec) (loadToken s).2, k⟩ ∧
    (refreshedRecord old tok rt dec).token = some tok ∧
    (refreshedRecord old tok rt dec).refreshToken
      = (if truthy rt then rt else old.refreshToken) ∧
    (refreshedRecord old tok rt dec).phoneNumber
      = (if truthy dec.phoneNumber then dec.phoneNumber else old.phoneNumber) ∧
    (refreshedRecord old tok rt dec).clientCode
      = (if truthy dec.uid then dec.uid else old.clientCode) ∧
    (refreshedRecord old tok rt dec).panNumber
      = (if truthy dec.panNumber then dec.panNumber else old.panNumber) ∧
    (requireToken (silentRefreshBody env s).state).1 = .ok tok := by
  have hbody := silentRefreshBody_unfold env s old hload hrt
  rw [maxRetries] at hbody hk3
  obtain ⟨le, hskip⟩ := refreshLoop_skip env old (loadToken s).2 (k - 1) 1 3 0 none
    (by omega) (fun j hj hj2 => htr j hj (by omega))
  have e1 : 1 + (k - 1) = k := by omega
  obtain ⟨f, hf⟩ : ∃ f, 3 - (k - 1) = f + 1 := ⟨3 - k, by omega⟩
  rw [e1, hf] at hskip
  have hstop := refreshLoop_ok_now env old (loadToken s).2 k f (0 + (k - 1)) le tok rt dec henv htok
  have hmain : silentRefreshBody env s
      = ⟨.ok tok, saveToken (refreshedRecord old tok rt dec) (loadToken s).2, k⟩ := by
    rw [hbody, hskip, hstop]
    congr 1
    omega
  refine ⟨hmain, rfl, rfl, rfl, rfl, rfl, ?_⟩
  rw [hmain]
  simp only [requireToken, loadToken, saveToken, refreshedRecord]
  simp [htok]

def envRenewOk : Nat → RefreshResp :=
  fun _ => .httpOk "b2" (some "r2") { phoneNumber := none, uid := none, panNumber := none }

/-- Witness for claim C8 (Scenario A): renewal with stored refresh token r1
succeeds returning bearer b2 and refresh token r2; the stored record now
has token b2 and refreshToken r2, and `requireToken` returns b2. -/
theorem silentRefresh_success_replaces_record_witness :
    silentRefreshBody envRenewOk stLoggedIn
      = ⟨.ok "b2",
         saveToken
           (refreshedRecord
             { token := some "b1", refreshToken := some "r1", phoneNumber := some "p1"
               clientCode := none, panNumber := none } "b2" (some "r2")
             { phoneNumber := none, uid := none, panNumber := none })
           (loadToken stLoggedIn).2, 1⟩ ∧
    (requireToken (silentRefreshBody envRenewOk stLoggedIn).state).1 = .ok "b2" ∧
    (silentRefreshBody envRenewOk stLoggedIn).state.cachedToken
      = some { token := some "b2", refreshToken := some "r2", phoneNumber := some "p1"
               clientCode := none, panNumber := none } := by
  have h := silentRefresh_success_replaces_record envRenewOk stLoggedIn
    { token := some "b1", refreshToken := some "r1", phoneNumber := some "p1"
      clientCode := none, panNumber := none } 1 "b2" (some "r2")
    { phoneNumber := none, uid := none, panNumber := none }
    rfl (by decide) (by decide) (by decide)
    (fun j h1 h2 => absurd (Nat.lt_of_le_of_lt h1 h2) (Nat.lt_irrefl 1))
    rfl (by decide)
  refine ⟨h.1, h.2.2.2.2.2.2, ?_⟩
  rw [h.1]
  decide

/-! ## The request executor (`createAuthenticatedClient`'s interceptor) -/

/-- Outcome of one issue of the wrapped HTTP request: a success payload or
an error with an optional HTTP status (`none` = network failure). -/
inductive HttpResult
  | ok (payload : String)
  | err (status : Option Nat)
deriving Repr, DecidableEq

/-- What the caller of a wrapped request observes:
the payload; the thrown `Session Expired` message (refresh failed with
`REFRESH_TOKEN_EXPIRED`); the thrown `Access Token Expired` message (any
other refresh failure); or the raw error passed through unchanged
(`Promise.reject(error)`). -/
inductive ExecResult
  | ok (payload : String)
  | sessionExpired
  | accessTokenExpired
  | passthrough (status : Option Nat)
deriving Repr, DecidableEq

/-- Result of one logical wrapped request: what the caller observes, the
credential-store state afterwards, and how many times the wrapped request
itself was issued. -/
structure ExecOutcome where
  result : ExecResult
  state : TMState
  requestsSent : Nat
deriving Repr, DecidableEq

/-- One logical request through the response interceptor of
`createAuthenticatedClient`.  `responses i` is the outcome of the i-th
issue of the wrapped request (0 = original, 1 = the retry); `env` drives
the refresh attempts.  A 401/403 on the original request (`_retry` not yet
set) triggers one `silentRefreshToken`; on refresh success the request is
retried exactly once and any error of the retry is passed through, because
`_retry` is then set; on refresh failure the store is cleared and
`Session Expired` is thrown when the refresh error message is
`REFRESH_TOKEN_EXPIRED`, else `Access Token Expired` is thrown.  All other
errors pass through unmodified. -/
def executeRequest (responses : Nat → HttpResult) (env : Nat → RefreshResp)
    (s : TMState) : ExecOutcome :=
  match responses 0 with
  | .ok p => ⟨.ok p, s, 1⟩
  | .err status =>
    if isAuthStatus status then
      let r := silentRefreshBody env s
      match r.result with
      | .ok _newTok =>
        match responses 1 with
        | .ok p => ⟨.ok p, r.state, 2⟩
        | .err status2 => ⟨.passthrough status2, r.state, 2⟩
      | .error e =>
        if e = .tokenExpired then ⟨.sessionExpired, clearToken r.state, 1⟩
        else ⟨.accessTokenExpired, r.state, 1⟩
    else ⟨.passthrough status, s, 1⟩

/-- Counterexample to claim C2 as stated: with a logged-in store, a 401 on
the original request, a refresh that succeeds (bearer b2), and a second 401
on the retried request, the caller receives the raw 401 error passed through
unchanged — not the `SessionExpired` condition (neither the
`Session Expired` nor the `Access Token Expired` message is produced). -/
theorem executeRequest_second401_not_sessionExpired :
    (executeRequest (fun _ => .err (some 401)) envRenewOk stLoggedIn).result
      = .passthrough (some 401) ∧
    (executeRequest (fun _ => .err (some 401)) envRenewOk stLoggedIn).result
      ≠ .sessionExpired ∧
    (executeRequest (fun _ => .err (some 401)) envRenewOk stLoggedIn).result
      ≠ .accessTokenExpired := by
  decide

/-- Claim C2 as amended: the executor issues the wrapped request at most
twice (one retry after a renewal, never an unbounded loop); a second
401/403 received after the retry is passed through to the caller as the raw
authorization error; the `SessionExpired`-style messages are produced
exactly when the renewal itself fails — `Session Expired` (re-authenticate
from scratch) when the renewal failed as `RenewalCredentialExpired`, else
`Access Token Expired` (retry renewal or re-authenticate). -/
theorem executeRequest_retries_at_most_once (responses : Nat → HttpResult)
    (env : Nat → RefreshResp) (s : TMState) :
    (executeRequest responses env s).requestsSent ≤ 2 ∧
    (∀ status status2 tok, responses 0 = .err status → isAuthStatus status = true →
      (silentRefreshBody env s).result = .ok tok → responses 1 = .err status2 →
      (executeRequest responses env s).result = .passthrough status2) ∧
    (∀ status, responses 0 = .err status → isAuthStatus status = true →
      (silentRefreshBody env s).result = .error .tokenExpired →
      (executeRequest responses env s).result = .sessionExpired) ∧
    (∀ status e, responses 0 = .err status → isAuthStatus status = true →
      (silentRefreshBody env s).result = .error e → e ≠ .tokenExpired →
      (executeRequest responses env s).result = .accessTokenExpired) := by
  refine ⟨?_, ?_, ?_, ?_⟩
  · cases h0 : responses 0 with
    | ok p => simp [executeRequest, h0]
    | err status =>
      by_cases ha : isAuthStatus status = true
      · cases hr : (silentRefreshBody env s).result with
        | ok tok =>
          cases h1 : responses 1 with
          | ok p => simp [executeRequest, h0, ha, hr, h1]
          | err status2 => simp [executeRequest, h0, ha, hr, h1]
        | error e =>
          by_cases he : e = .tokenExpired
          · simp [executeRequest, h0, ha, hr, he]
          · simp [executeRequest, h0, ha, hr, he]
      · simp [executeRequest, h0, Bool.of_not_eq_true ha]
  · intro status status2 tok h0 ha hr h1
    simp [executeRequest, h0, ha, hr, h1]
  · intro status h0 ha hr
    simp [executeRequest, h0, ha, hr]
  · intro status e h0 ha hr he
    simp [executeRequest, h0, ha, hr, he]

/-- Witness for the amended claim C2, at the counterexample's own input:
at most two issues of the wrapped request, and the second 401 after the
successful renewal is passed through raw. -/
theorem executeRequest_retries_at_most_once_witness :
    (executeRequest (fun _ => .err (some 401)) envRenewOk stLoggedIn).requestsSent ≤ 2 ∧
    (executeRequest (fun _ => .err (some 401)) envRenewOk stLoggedIn).result
      = .passthrough (some 401) :=
  ⟨(executeRequest_retries_at_most_once (fun _ => .err (some 401)) envRenewOk stLoggedIn).1,
   (executeRequest_retries_at_most_once (fun _ => .err (some 401)) envRenewOk stLoggedIn).2.1
     (some 401) (some 401) "b2" rfl (by decide) (by decide) rfl⟩

/-- Claim C3: whenever the renewal performed for a wrapped request is
classified `RenewalCredentialExpired` (the refresh threw
`REFRESH_TOKEN_EXPIRED`), the credential store is cleared before the
`Session Expired` error reaches the caller, so the very next
`requireToken` fails with `NotAuthenticated` instead of returning the dead
bearer token. -/
theorem renewalCredentialExpired_clears_store (responses : Nat → HttpResult)
    (env : Nat → RefreshResp) (s : TMState) (status : Option Nat)
    (h0 : responses 0 = .err status) (ha : isAuthStatus status = true)
    (hr : (silentRefreshBody env s).result = .error .tokenExpired) :
    (executeRequest responses env s).result = .sessionExpired ∧
    (executeRequest responses env s).state = clearToken (silentRefreshBody env s).state ∧
    (requireToken (executeRequest responses env s).state).1 = .error .notAuthenticated := by
  have hx : executeRequest responses env s
      = ⟨.sessionExpired, clearToken (silentRefreshBody env s).state, 1⟩ := by
    simp [executeRequest, h0, ha, hr]
  rw [hx]
  exact ⟨rfl, rfl, rfl⟩

/-- Witness for claim C3 (Scenario B): the renewal call returns 403, the
refresh throws `REFRESH_TOKEN_EXPIRED`, the store is cleared, and the next
`requireToken` reports `NotAuthenticated`. -/
theorem renewalCredentialExpired_clears_store_witness :
    (executeRequest (fun _ => .err (some 401)) env403 stLoggedIn).result = .sessionExpired ∧
    (executeRequest (fun _ => .err (some 401)) env403 stLoggedIn).state
      = clearToken (silentRefreshBody env403 stLoggedIn).state ∧
    (requireToken (executeRequest (fun _ => .err (some 401)) env403 stLoggedIn).state).1
      = .error .notAuthenticated :=
  renewalCredentialExpired_clears_store (fun _ => .err (some 401)) env403 stLoggedIn
    (some 401) rfl (by decide) (by decide)

/-! ## The single-flight discipline of `refreshTokenPromise`

`silentRefreshToken` runs no `await` between reading the module-level
`refreshTokenPromise` and assigning it, so in the JavaScript run-to-completion
model each entry into `renew()` is one atomic step: it either joins the
promise already in flight or installs a fresh one and becomes the driver.
Completion of the driven refresh runs the `finally` (resetting the handle to
`null`) before the promise settles and the waiters observe the outcome.
The model below is that transition system; promises are numbered so that two
`renew()` calls await the identical outcome exactly when they hold the same
promise id. -/

/-- The process-local single-flight state: the in-flight promise id (the
module-level `refreshTokenPromise`, `none` = `null`), a counter for fresh
promise ids, the number of driven refreshes started, and the number
currently active. -/
structure SFState where
  inFlight : Option Nat
  nextId : Nat
  started : Nat
  active : Nat
deriving Repr, DecidableEq

/-- An event at the single-flight state: a caller enters `renew()`, or the
driven refresh completes (its `finally` resets the handle to `null` before
the outcome is delivered). -/
inductive SFEvent
  | enter (caller : Nat)
  | complete
deriving Repr, DecidableEq

/-- One atomic step.  An entering caller joins the in-flight promise if one
exists, else installs a fresh promise and starts driving; the returned list
records which promise that caller awaits.  Completion clears the handle. -/
def sfStep (s : SFState) : SFEvent → SFState × List (Nat × Nat)
  | .enter c =>
    match s.inFlight with
    | some p => (s, [(c, p)])
    | none =>
      ({ inFlight := some s.nextId, nextId := s.nextId + 1
         started := s.started + 1, active := s.active + 1 }, [(c, s.nextId)])
  | .complete =>
    match s.inFlight with
    | some _ => ({ s with inFlight := none, active := s.active - 1 }, [])
    | none => (s, [])

/-- Run a sequence of events, accumulating the caller-to-promise record. -/
def sfRun (s : SFState) : List SFEvent → SFState × List (Nat × Nat)
  | [] => (s, [])
  | e :: es =>
    let step := sfStep s e
    let rest := sfRun step.1 es
    (rest.1, step.2 ++ rest.2)

/-- The single-flight invariant: the active-driver count mirrors the
in-flight handle (hence is at most one), and the in-flight promise id is
below the fresh-id counter. -/
def wfSF (s : SFState) : Prop :=
  s.active = (if s.inFlight.isSome then 1 else 0) ∧
  ∀ p, s.inFlight = some p → p < s.nextId

lemma map_const_replicate {α β : Type} (l : List α) (b : β) :
    l.map (fun _ => b) = List.replicate l.length b := by
  induction l with
  | nil => rfl
  | cons x xs ih => simp [List.replicate_succ, ih]

lemma sfStep_wf (s : SFState) (e : SFEvent) (h : wfSF s) : wfSF (sfStep s e).1 := by
  obtain ⟨ha, hp⟩ := h
  cases e with
  | enter c =>
    cases hin : s.inFlight with
    | some p =>
      have hstep : (sfStep s (SFEvent.enter c)).1 = s := by simp [sfStep, hin]
      rw [hstep]
      exact ⟨ha, hp⟩
    | none =>
      have ha0 : s.active = 0 := by rw [hin] at ha; simpa using ha
      have hstep : (sfStep s (SFEvent.enter c)).1
          = { inFlight := some s.nextId, nextId := s.nextId + 1
              started := s.started + 1, active := s.active + 1 } := by
        simp [sfStep, hin]
      rw [hstep]
      constructor
      · show s.active + 1 = if (some s.nextId).isSome then 1 else 0
        simp [ha0]
      · intro q hq
        have hq2 : s.nextId = q := by simpa using hq
        show q < s.nextId + 1
        omega
  | complete =>
    cases hin : s.inFlight with
    | some p =>
      have ha1 : s.active = 1 := by rw [hin] at ha; simpa using ha
      have hstep : (sfStep s SFEvent.complete).1
          = { s with inFlight := none, active := s.active - 1 } := by
        simp [sfStep, hin]
      rw [hstep]
      constructor
      · show s.active - 1 = if (none : Option Nat).isSome then 1 else 0
        simp [ha1]
      · intro q hq
        exact absurd hq (by simp)
    | none =>
      have hstep : (sfStep s SFEvent.complete).1 = s := by simp [sfStep, hin]
      rw [hstep]
      exact ⟨ha, hp⟩

lemma sfRun_wf (trace : List SFEvent) : ∀ s : SFState, wfSF s → wfSF (sfRun s trace).1 := by
  induction trace with
  | nil => intro s h; exact h
  | cons e es ih => intro s h; exact ih (sfStep s e).1 (sfStep_wf s e h)

/-- While a promise is in flight, every entering caller joins it and the
state does not change. -/
lemma sfRun_enters_join (p : Nat) :
    ∀ (callers : List Nat) (s : SFState), s.inFlight = some p →
      sfRun s (callers.map SFEvent.enter) = (s, callers.map (fun c => (c, p))) := by
  intro callers
  induction callers with
  | nil => intro s _; rfl
  | cons c cs ih =>
    intro s hin
    have hstep : sfStep s (SFEvent.enter c) = (s, [(c, p)]) := by
      simp [sfStep, hin]
    simp only [List.map_cons, sfRun, hstep, ih s hin]
    rfl

/-- Claim C1: for any nonempty batch of callers entering `renew()` while no
renewal is in flight, exactly one driven refresh is started, every caller
is recorded against the same fresh promise id, and therefore — for any
resolution of the promises — all callers receive the identical outcome. -/
theorem singleFlight_one_renewal (callers : List Nat) (s0 : SFState)
    (hin : s0.inFlight = none) (hne : callers ≠ []) :
    (sfRun s0 (callers.map SFEvent.enter)).1.started = s0.started + 1 ∧
    (sfRun s0 (callers.map SFEvent.enter)).2 = callers.map (fun c => (c, s0.nextId)) ∧
    ∀ resolution : Nat → Except RefreshThrown String,
      ((sfRun s0 (callers.map SFEvent.enter)).2.map (fun a => resolution a.2))
        = List.replicate callers.length (resolution s0.nextId) := by
  obtain ⟨c, cs, rfl⟩ : ∃ c cs, callers = c :: cs := by
    cases callers with
    | nil => exact absurd rfl hne
    | cons c cs => exact ⟨c, cs, rfl⟩
  set s1 : SFState :=
    { inFlight := some s0.nextId, nextId := s0.nextId + 1
      started := s0.started + 1, active := s0.active + 1 } with hs1
  have hstep : sfStep s0 (SFEvent.enter c) = (s1, [(c, s0.nextId)]) := by
    simp [sfStep, hin, hs1]
  have hrest := sfRun_enters_join s0.nextId cs s1 (by rw [hs1])
  have hrun : sfRun s0 ((c :: cs).map SFEvent.enter)
      = (s1, (c, s0.nextId) :: cs.map (fun x => (x, s0.nextId))) := by
    simp only [List.map_cons, sfRun, hstep, hrest]
    rfl
  rw [hrun]
  refine ⟨rfl, rfl, ?_⟩
  intro resolution
  simp only [List.map_cons, List.map_map, List.length_cons, List.replicate_succ]
  exact congrArg (List.cons (resolution s0.nextId))
    (map_const_replicate cs (resolution s0.nextId))

/-- Witness for claim C1: three concurrent callers entering with no renewal
in flight start exactly one driven refresh and all await promise 0. -/
theorem singleFlight_one_renewal_witness :
    (sfRun ⟨none, 0, 0, 0⟩ ([0, 1, 2].map SFEvent.enter)).1.started = 0 + 1 ∧
    (sfRun ⟨none, 0, 0, 0⟩ ([0, 1, 2].map SFEvent.enter)).2
      = [0, 1, 2].map (fun c => (c, 0)) :=
  ⟨(singleFlight_one_renewal [0, 1, 2] ⟨none, 0, 0, 0⟩ rfl (by decide)).1,
   (singleFlight_one_renewal [0, 1, 2] ⟨none, 0, 0, 0⟩ rfl (by decide)).2.1⟩

/-- Claim C10 (implicit): at most one driven refresh is active at any time
(the invariant is preserved along every trace and bounds `active` by one);
completing a refresh resets the in-flight handle to `null`; and a caller
entering after that completion starts a fresh driven refresh under a new
promise id — it cannot observe the previous, stale outcome. -/
theorem singleFlight_reset_on_completion (s : SFState) (trace : List SFEvent)
    (hwf : wfSF s) :
    (wfSF (sfRun s trace).1 ∧ (sfRun s trace).1.active ≤ 1) ∧
    ∀ p, s.inFlight = some p →
      (sfStep s .complete).1.inFlight = none ∧
      ∀ c, (sfStep (sfStep s .complete).1 (.enter c)).1.started = s.started + 1 ∧
        (sfStep (sfStep s .complete).1 (.enter c)).2 = [(c, s.nextId)] ∧
        s.nextId ≠ p := by
  have hrun := sfRun_wf trace s hwf
  refine ⟨⟨hrun, ?_⟩, ?_⟩
  · rw [hrun.1]
    cases (sfRun s trace).1.inFlight <;> simp
  · intro p hp
    have hcomp : (sfStep s .complete).1 = { s with inFlight := none, active := s.active - 1 } := by
      simp [sfStep, hp]
    refine ⟨by rw [hcomp], ?_⟩
    intro c
    have henter : sfStep { s with inFlight := none, active := s.active - 1 } (.enter c)
        = ({ inFlight := some s.nextId, nextId := s.nextId + 1
             started := s.started + 1, active := s.active - 1 + 1 }, [(c, s.nextId)]) := by
      simp [sfStep]
    rw [hcomp, henter]
    exact ⟨rfl, rfl, fun hEq => absurd (hEq ▸ hwf.2 p hp) (lt_irrefl p)⟩

/-- Witness for claim C10: from a state with promise 0 in flight, the
completion clears the handle and a subsequent caller starts driver number 2
under the fresh promise id 1. -/
theorem singleFlight_reset_on_completion_witness :
    (wfSF (sfRun ⟨some 0, 1, 1, 1⟩ [SFEvent.complete]).1 ∧
      (sfRun ⟨some 0, 1, 1, 1⟩ [SFEvent.complete]).1.active ≤ 1) ∧
    (sfStep ⟨some 0, 1, 1, 1⟩ .complete).1.inFlight = none ∧
    (sfStep (sfStep ⟨some 0, 1, 1, 1⟩ .complete).1 (.enter 7)).1.started = 1 + 1 ∧
    (sfStep (sfStep ⟨some 0, 1, 1, 1⟩ .complete).1 (.enter 7)).2 = [(7, 1)] ∧
    (1 : Nat) ≠ 0 := by
  have hwf : wfSF ⟨some 0, 1, 1, 1⟩ := by
    refine ⟨rfl, ?_⟩
    intro p hp
    have hp0 : p = 0 := by simpa using hp.symm
    show p < 1
    omega
  have h := singleFlight_reset_on_completion ⟨some 0, 1, 1, 1⟩ [SFEvent.complete] hwf
  obtain ⟨h1, h2⟩ := h
  obtain ⟨ha, hb⟩ := h2 0 rfl
  exact ⟨h1, ha, (hb 7).1, (hb 7).2.1, (hb 7).2.2⟩

/-! ## The bounded polling engines (`pollPaymentStatus`, `pollMandateStatus`
in src/invest.ts) -/

/-- Whether `pat` is a leading piece of `s` (character lists). -/
def charsLeading : List Char → List Char → Bool
  | _, [] => true
  | [], _ :: _ => false
  | c :: cs, p :: ps => c == p && charsLeading cs ps

/-- Whether `pat` occurs contiguously inside `s` (character lists). -/
def charsContains (s pat : List Char) : Bool :=
  match s with
  | [] => charsLeading [] pat
  | c :: cs => charsLeading (c :: cs) pat || charsContains cs pat

/-- JavaScript `s.includes(pat)`. -/
def strIncludes (s pat : String) : Bool :=
  charsContains s.toList pat.toList

/-- JavaScript `d?.includes(pat)` used as a condition: `undefined` is falsy. -/
def optIncludes (d : Option String) (pat : String) : Bool :=
  match d with
  | none => false
  | some s => strIncludes s pat

/-- One probe of the payment-status endpoint: a response with its `status`
field and optional `data` string, or a thrown (network) error that the
loop swallows. -/
inductive PayProbe
  | resp (status : String) (data : Option String)
  | exn
deriving Repr, DecidableEq

/-- The record `pollPaymentStatus` returns. -/
structure PayPollResult where
  success : Bool
  status : String
  data : String
deriving Repr, DecidableEq

def payTimeoutMsg : String :=
  "Payment status could not be confirmed within the timeout period"

/-- The loop of `pollPaymentStatus`: up to `fuel` further attempts, probing
`probes attempt`, stopping on the approved marker (`status SUCCESS` and
data containing the marker 100|) or the rejected marker (`status FAILURE`
and data containing 101|); errors and pending responses consume an attempt
and continue; exhaustion returns the `TIMEOUT` record.  Also returns the
number of probe calls made. -/
def pollPaymentLoop (probes : Nat → PayProbe) : Nat → Nat → Nat → PayPollResult × Nat
  | _attempt, 0, calls => (⟨false, "TIMEOUT", payTimeoutMsg⟩, calls)
  | attempt, fuel + 1, calls =>
    match probes attempt with
    | .exn => pollPaymentLoop probes (attempt + 1) fuel (calls + 1)
    | .resp st d =>
      if st == "SUCCESS" && optIncludes d "100|" then
        (⟨true, "APPROVED", d.getD ""⟩, calls + 1)
      else if st == "FAILURE" && optIncludes d "101|" then
        (⟨false, "REJECTED", d.getD ""⟩, calls + 1)
      else pollPaymentLoop probes (attempt + 1) fuel (calls + 1)

/-- `pollPaymentStatus` with the given `maxAttempts` (attempts numbered
from 1), together with the number of probe calls made. -/
def pollPaymentStatus (probes : Nat → PayProbe) (maxAttempts : Nat) :
    PayPollResult × Nat :=
  pollPaymentLoop probes 1 maxAttempts 0

/-- One probe of the mandate-status endpoint: the extracted
`mandateStatus` (`none` when the optional chain finds no status) with the
opaque details payload, or a thrown error that the loop swallows. -/
inductive MandateProbe
  | resp (mandateStatus : Option String) (payload : String)
  | exn
deriving Repr, DecidableEq

/-- The record `pollMandateStatus` returns (`data` abstracted to the
payload string). -/
structure MPollResult where
  success : Bool
  status : String
  data : String
deriving Repr, DecidableEq

def mandateTimeoutMsg : String :=
  "Mandate status could not be confirmed within the timeout period"

/-- The mandate success-terminal vocabulary (`RECEIVED BY EXCHANGE`,
`APPROVED`, `UNDER PROCESSING`). -/
def isMandateSuccessStr (s : String) : Bool :=
  s == "RECEIVED BY EXCHANGE" || s == "APPROVED" || s == "UNDER PROCESSING"

/-- The mandate failure-terminal vocabulary (`FAILED`, `REJECTED`). -/
def isMandateFailureStr (s : String) : Bool :=
  s == "FAILED" || s == "REJECTED"

/-- The loop of `pollMandateStatus`: terminal success on the success
vocabulary, terminal failure on the failure vocabulary, all else (including
an absent status and thrown errors) pending; exhaustion returns the
`TIMEOUT` record. -/
def pollMandateLoop (probes : Nat → MandateProbe) : Nat → Nat → Nat → MPollResult × Nat
  | _attempt, 0, calls => (⟨false, "TIMEOUT", mandateTimeoutMsg⟩, calls)
  | attempt, fuel + 1, calls =>
    match probes attempt with
    | .exn => pollMandateLoop probes (attempt + 1) fuel (calls + 1)
    | .resp st payload =>
      match st with
      | some str =>
        if isMandateSuccessStr str then (⟨true, str, payload⟩, calls + 1)
        else if isMandateFailureStr str then (⟨false, str, payload⟩, calls + 1)
        else pollMandateLoop probes (attempt + 1) fuel (calls + 1)
      | none => pollMandateLoop probes (attempt + 1) fuel (calls + 1)

/-- `pollMandateStatus` with the given `maxAttempts`, together with the
number of probe calls made. -/
def pollMandateStatus (probes : Nat → MandateProbe) (maxAttempts : Nat) :
    MPollResult × Nat :=
  pollMandateLoop probes 1 maxAttempts 0

/-- A payment probe outcome that is not terminal: a thrown error or a
response matching neither the approved nor the rejected marker. -/
def nonTerminalPay : PayProbe → Bool
  | .exn => true
  | .resp st d =>
    !(st == "SUCCESS" && optIncludes d "100|") && !(st == "FAILURE" && optIncludes d "101|")

/-- A mandate probe outcome that is not terminal: a thrown error, an absent
status, or a status in neither terminal vocabulary. -/
def nonTerminalMandate : MandateProbe → Bool
  | .exn => true
  | .resp none _ => true
  | .resp (some str) _ => !(isMandateSuccessStr str) && !(isMandateFailureStr str)

lemma pollMandateLoop_cases (probes : Nat → MandateProbe) :
    ∀ (fuel attempt calls : Nat),
      (((pollMandateLoop probes attempt fuel calls).1.success = true ∧
          isMandateSuccessStr (pollMandateLoop probes attempt fuel calls).1.status = true) ∨
        ((pollMandateLoop probes attempt fuel calls).1.success = false ∧
          isMandateFailureStr (pollMandateLoop probes attempt fuel calls).1.status = true) ∨
        ((pollMandateLoop probes attempt fuel calls).1.success = false ∧
          (pollMandateLoop probes attempt fuel calls).1.status = "TIMEOUT")) ∧
      (pollMandateLoop probes attempt fuel calls).2 ≤ calls + fuel := by
  intro fuel
  induction fuel with
  | zero =>
    intro attempt calls
    exact ⟨Or.inr (Or.inr ⟨rfl, rfl⟩), Nat.le_refl _⟩
  | succ fuel ih =>
    intro attempt calls
    have hbound := (ih (attempt + 1) (calls + 1)).2
    cases hp : probes attempt with
    | exn =>
      simp only [pollMandateLoop, hp]
      exact ⟨(ih (attempt + 1) (calls + 1)).1, by omega⟩
    | resp st payload =>
      cases st with
      | none =>
        simp only [pollMandateLoop, hp]
        exact ⟨(ih (attempt + 1) (calls + 1)).1, by omega⟩
      | some str =>
        simp only [pollMandateLoop, hp]
        by_cases hs : isMandateSuccessStr str = true
        · rw [if_pos hs]
          refine ⟨Or.inl ⟨rfl, hs⟩, ?_⟩
          show calls + 1 ≤ calls + (fuel + 1)
          omega
        · rw [if_neg hs]
          by_cases hf : isMandateFailureStr str = true
          · rw [if_pos hf]
            refine ⟨Or.inr (Or.inl ⟨rfl, hf⟩), ?_⟩
            show calls + 1 ≤ calls + (fuel + 1)
            omega
          · rw [if_neg hf]
            exact ⟨(ih (attempt + 1) (calls + 1)).1, by omega⟩

lemma pollMandateLoop_allNT (probes : Nat → MandateProbe)
    (hnt : ∀ i, nonTerminalMandate (probes i) = true) :
    ∀ (fuel attempt calls : Nat),
      pollMandateLoop probes attempt fuel calls
        = (⟨false, "TIMEOUT", mandateTimeoutMsg⟩, calls + fuel) := by
  intro fuel
  induction fuel with
  | zero => intro attempt calls; rfl
  | succ fuel ih =>
    intro attempt calls
    have h := hnt attempt
    have hplus : calls + 1 + fuel = calls + (fuel + 1) := by omega
    cases hp : probes attempt with
    | exn =>
      simp only [pollMandateLoop, hp]
      rw [ih (attempt + 1) (calls + 1), hplus]
    | resp st payload =>
      cases st with
      | none =>
        simp only [pollMandateLoop, hp]
        rw [ih (attempt + 1) (calls + 1), hplus]
      | some str =>
        rw [hp, nonTerminalMandate] at h
        simp only [Bool.and_eq_true, Bool.not_eq_true'] at h
        simp only [pollMandateLoop, hp]
        rw [if_neg (by simp [h.1]), if_neg (by simp [h.2]),
          ih (attempt + 1) (calls + 1), hplus]

lemma pollPaymentLoop_cases (probes : Nat → PayProbe) :
    ∀ (fuel attempt calls : Nat),
      (((pollPaymentLoop probes attempt fuel calls).1.success = true ∧
          (pollPaymentLoop probes attempt fuel calls).1.status = "APPROVED") ∨
        ((pollPaymentLoop probes attempt fuel calls).1.success = false ∧
          (pollPaymentLoop probes attempt fuel calls).1.status = "REJECTED") ∨
        ((pollPaymentLoop probes attempt fuel calls).1.success = false ∧
          (pollPaymentLoop probes attempt fuel calls).1.status = "TIMEOUT")) ∧
      (pollPaymentLoop probes attempt fuel calls).2 ≤ calls + fuel := by
  intro fuel
  induction fuel with
  | zero =>
    intro attempt calls
    exact ⟨Or.inr (Or.inr ⟨rfl, rfl⟩), Nat.le_refl _⟩
  | succ fuel ih =>
    intro attempt calls
    have hbound := (ih (attempt + 1) (calls + 1)).2
    cases hp : probes attempt with
    | exn =>
      simp only [pollPaymentLoop, hp]
      exact ⟨(ih (attempt + 1) (calls + 1)).1, by omega⟩
    | resp st d =>
      simp only [pollPaymentLoop, hp]
      by_cases hs : (st == "SUCCESS" && optIncludes d "100|") = true
      · rw [if_pos hs]
        refine ⟨Or.inl ⟨rfl, rfl⟩, ?_⟩
        show calls + 1 ≤ calls + (fuel + 1)
        omega
      · rw [if_neg hs]
        by_cases hf : (st == "FAILURE" && optIncludes d "101|") = true
        · rw [if_pos hf]
          refine ⟨Or.inr (Or.inl ⟨rfl, rfl⟩), ?_⟩
          show calls + 1 ≤ calls + (fuel + 1)
          omega
        · rw [if_neg hf]
          exact ⟨(ih (attempt + 1) (calls + 1)).1, by omega⟩

lemma pollPaymentLoop_allNT (probes : Nat → PayProbe)
    (hnt : ∀ i, nonTerminalPay (probes i) = true) :
    ∀ (fuel attempt calls : Nat),
      pollPaymentLoop probes attempt fuel calls
        = (⟨false, "TIMEOUT", payTimeoutMsg⟩, calls + fuel) := by
  intro fuel
  induction fuel with
  | zero => intro attempt calls; rfl
  | succ fuel ih =>
    intro attempt calls
    have h := hnt attempt
    have hplus : calls + 1 + fuel = calls + (fuel + 1) := by omega
    cases hp : probes attempt with
    | exn =>
      simp only [pollPaymentLoop, hp]
      rw [ih (attempt + 1) (calls + 1), hplus]
    | resp st d =>
      rw [hp, nonTerminalPay] at h
      simp only [Bool.and_eq_true, Bool.not_eq_true'] at h
      simp only [pollPaymentLoop, hp]
      rw [if_neg (by simp [h.1]), if_neg (by simp [h.2]),
        ih (attempt + 1) (calls + 1), hplus]

/-- Claim C4: for every probe function and every `maxAttempts ≥ 1`, both
polling engines return (never throw) exactly one of the three outcomes —
success-terminal, failure-terminal, or the `TIMEOUT` record — making at
most `maxAttempts` probe calls; and when every probe outcome is
non-terminal (errors included, each consuming one iteration), the result is
`TIMEOUT` after exactly `maxAttempts` probe calls. -/
theorem poll_returns_classified_outcome (mp : Nat → MandateProbe)
    (pp : Nat → PayProbe) (n : Nat) (_hn : 1 ≤ n) :
    (((pollMandateStatus mp n).1.success = true ∧
        isMandateSuccessStr (pollMandateStatus mp n).1.status = true) ∨
      ((pollMandateStatus mp n).1.success = false ∧
        isMandateFailureStr (pollMandateStatus mp n).1.status = true) ∨
      ((pollMandateStatus mp n).1.success = false ∧
        (pollMandateStatus mp n).1.status = "TIMEOUT")) ∧
    (pollMandateStatus mp n).2 ≤ n ∧
    ((∀ i, nonTerminalMandate (mp i) = true) →
      pollMandateStatus mp n = (⟨false, "TIMEOUT", mandateTimeoutMsg⟩, n)) ∧
    (((pollPaymentStatus pp n).1.success = true ∧
        (pollPaymentStatus pp n).1.status = "APPROVED") ∨
      ((pollPaymentStatus pp n).1.success = false ∧
        (pollPaymentStatus pp n).1.status = "REJECTED") ∨
      ((pollPaymentStatus pp n).1.success = false ∧
        (pollPaymentStatus pp n).1.status = "TIMEOUT")) ∧
    (pollPaymentStatus pp n).2 ≤ n ∧
    ((∀ i, nonTerminalPay (pp i) = true) →
      pollPaymentStatus pp n = (⟨false, "TIMEOUT", payTimeoutMsg⟩, n)) := by
  refine ⟨(pollMandateLoop_cases mp n 1 0).1, ?_, ?_, (pollPaymentLoop_cases pp n 1 0).1, ?_, ?_⟩
  · have := (pollMandateLoop_cases mp n 1 0).2
    simpa [pollMandateStatus] using this
  · intro hnt
    rw [pollMandateStatus, pollMandateLoop_allNT mp hnt n 1 0, Nat.zero_add]
  · have := (pollPaymentLoop_cases pp n 1 0).2
    simpa [pollPaymentStatus] using this
  · intro hnt
    rw [pollPaymentStatus, pollPaymentLoop_allNT pp hnt n 1 0, Nat.zero_add]

/-- Scenario D's probe sequence: every mandate probe reports status NEW. -/
def scenDProbes : Nat → MandateProbe := fun _ => .resp (some "NEW") "details"

/-- Witness for claim C4 (Scenario D): a mandate probe sequence of all NEW
with `maxAttempts = 3` returns the `TIMEOUT` outcome after exactly 3 probe
calls, with no exception raised. -/
theorem poll_returns_classified_outcome_witness :
    pollMandateStatus scenDProbes 3 = (⟨false, "TIMEOUT", mandateTimeoutMsg⟩, 3) ∧
    (pollPaymentStatus (fun _ => .exn) 3).2 ≤ 3 :=
  ⟨(poll_returns_classified_outcome scenDProbes (fun _ => .exn) 3 (by decide)).2.2.1
      (fun i => rfl),
   (poll_returns_classified_outcome scenDProbes (fun _ => .exn) 3 (by decide)).2.2.2.2.1⟩

lemma pollPaymentLoop_skip (probes : Nat → PayProbe) :
    ∀ (m attempt fuel calls : Nat),
      m ≤ fuel →
      (∀ j, attempt ≤ j → j < attempt + m → nonTerminalPay (probes j) = true) →
      pollPaymentLoop probes attempt fuel calls
        = pollPaymentLoop probes (attempt + m) (fuel - m) (calls + m) := by
  intro m
  induction m with
  | zero => intro attempt fuel calls _ _; simp
  | succ m ih =>
    intro attempt fuel calls hm htr
    obtain ⟨fuel1, rfl⟩ : ∃ f, fuel = f + 1 := ⟨fuel - 1, by omega⟩
    have h := htr attempt le_rfl (by omega)
    have hstep : pollPaymentLoop probes attempt (fuel1 + 1) calls
        = pollPaymentLoop probes (attempt + 1) fuel1 (calls + 1) := by
      cases hp : probes attempt with
      | exn => simp only [pollPaymentLoop, hp]
      | resp st d =>
        rw [hp, nonTerminalPay] at h
        simp only [Bool.and_eq_true, Bool.not_eq_true'] at h
        simp only [pollPaymentLoop, hp]
        rw [if_neg (by simp [h.1]), if_neg (by simp [h.2])]
    have hrest := ih (attempt + 1) fuel1 (calls + 1) (by omega)
      (fun j hj hj2 => htr j (by omega) (by omega))
    rw [hstep, hrest]
    have e1 : attempt + 1 + m = attempt + (m + 1) := by omega
    have e2 : fuel1 - m = fuel1 + 1 - (m + 1) := by omega
    have e3 : calls + 1 + m = calls + (m + 1) := by omega
    rw [e1, e2, e3]

/-- Claim C7: in the payment instantiation, the first probe whose response
has status SUCCESS and whose data contains the marker 100| (probe k, all
earlier probes non-terminal) stops the loop, which returns the approved
outcome with that raw payload attached after exactly k probe calls. -/
theorem pollPayment_stops_on_first_approved (probes : Nat → PayProbe)
    (k n : Nat) (d : String)
    (hk1 : 1 ≤ k) (hkn : k ≤ n)
    (htr : ∀ j, 1 ≤ j → j < k → nonTerminalPay (probes j) = true)
    (hp : probes k = .resp "SUCCESS" (some d))
    (hd : strIncludes d "100|" = true) :
    (pollPaymentStatus probes n).1 = ⟨true, "APPROVED", d⟩ ∧
    (pollPaymentStatus probes n).2 = k := by
  have hskip := pollPaymentLoop_skip probes (k - 1) 1 n 0 (by omega)
    (fun j hj hj2 => htr j hj (by omega))
  have e1 : 1 + (k - 1) = k := by omega
  obtain ⟨f, hf⟩ : ∃ f, n - (k - 1) = f + 1 := ⟨n - k, by omega⟩
  rw [e1, hf] at hskip
  have hcond : ("SUCCESS" == "SUCCESS" && optIncludes (some d) "100|") = true := by
    rw [optIncludes]
    simp [hd]
  have hstop : pollPaymentLoop probes k (f + 1) (0 + (k - 1))
      = (⟨true, "APPROVED", d⟩, 0 + (k - 1) + 1) := by
    simp only [pollPaymentLoop, hp]
    rw [if_pos hcond]
    rfl
  have hmain : pollPaymentStatus probes n = (⟨true, "APPROVED", d⟩, 0 + (k - 1) + 1) := by
    rw [pollPaymentStatus, hskip, hstop]
  rw [hmain]
  exact ⟨rfl, by show 0 + (k - 1) + 1 = k; omega⟩

/-- Scenario C's probe sequence: pending, pending, then a SUCCESS response
whose data carries the 100| marker. -/
def scenCProbes : Nat → PayProbe :=
  fun n => if n < 3 then .resp "PENDING" none else .resp "SUCCESS" (some "100|approved")

/-- Witness for claim C7 (Scenario C): the probe sequence
pending, pending, approved with `maxAttempts = 5` returns the approved
outcome with the raw payload after exactly 3 probe calls. -/
theorem pollPayment_stops_on_first_approved_witness :
    (pollPaymentStatus scenCProbes 5).1 = ⟨true, "APPROVED", "100|approved"⟩ ∧
    (pollPaymentStatus scenCProbes 5).2 = 3 :=
  pollPayment_stops_on_first_approved scenCProbes 3 5 "100|approved"
    (by decide) (by decide)
    (fun j h1 h2 => by
      rw [show scenCProbes j = .resp "PENDING" none from by rw [scenCProbes]; simp [h2]]
      rfl)
    (by simp [scenCProbes]) (by decide)

end FabitsMCP
